import Mathlib

/-!
# Verification of the DNA task-orchestration fabric

Shallow embedding of the job-orchestration core of the DNA repository:
the durable task store (`ai-service/db_client.py`,
`dashboard/backend/app/services/task_service.py`), the stream-consumer
worker (`ai-service/stream_consumer.py`), the progress WebSocket endpoint
(`dashboard/backend/app/websocket/task_progress.py`), the template
version-restore route (`dashboard/backend/app/routes/catalog_templates.py`),
the LLM client retry loop (`ai-service/llm_client.py`) and the template
agent's enrichment and file validation (`ai-service/agents/template.py`).

Conventions: machine timestamps are modelled as `Int` seconds; SQL `NULL`
is `Option.none`; JSON blobs whose internal shape is irrelevant to a claim
are opaque `String`s; monetary amounts are opaque integers (only their
presence or absence matters to the properties proved here).
-/

namespace DNA

/-- SQL `COALESCE(a, b)`: the first non-NULL argument. -/
def coalesce {α : Type} (a b : Option α) : Option α :=
  match a with
  | some x => some x
  | none => b

/-! ## The task store row (`dna_app.ai_tasks`)

One row per job.  Columns restricted to those the embedded operations
touch.  `created_at` is always present (set at insert); the rest of the
timestamps are nullable. -/

structure TaskRow where
  status : String
  progress : Int
  current_step : Option String
  error : Option String
  result : Option String
  cost_usd : Option Int
  tokens_input : Option Int
  tokens_output : Option Int
  duration_seconds : Option Int
  created_at : Int
  started_at : Option Int
  completed_at : Option Int
  deriving Repr, DecidableEq

/-- Terminal statuses of the job state machine. -/
def isTerminalStatus (s : String) : Bool :=
  s == "completed" || s == "failed" || s == "cancelled"

/-- `DatabaseClient.update_task_status` (ai-service/db_client.py:77-113).
One `UPDATE ... WHERE id = $1` with
`status = $2`, `progress = COALESCE($3, progress)`,
`current_step = COALESCE($4, current_step)`, `error = COALESCE($5, error)`,
`started_at = CASE WHEN $2 = 'processing' AND started_at IS NULL THEN NOW() ... END`,
`completed_at = CASE WHEN $2 IN ('completed','failed','cancelled') THEN NOW() ... END`.
The `WHERE` clause filters on `id` only: there is no condition on the
current `status`. -/
def updateTaskStatus (row : TaskRow) (status : String) (progress : Option Int)
    (currentStep : Option String) (error : Option String) (now : Int) : TaskRow :=
  { row with
    status := status
    progress := progress.getD row.progress
    current_step := coalesce currentStep row.current_step
    error := coalesce error row.error
    started_at :=
      if status = "processing" ∧ row.started_at = none then some now
      else row.started_at
    completed_at :=
      if status = "completed" ∨ status = "failed" ∨ status = "cancelled" then some now
      else row.completed_at }

/-- `DatabaseClient.save_task_result` (ai-service/db_client.py:115-166).
`UPDATE ... SET status = 'completed', progress = 100, result = $2,
cost_usd = COALESCE($3, cost_usd), tokens_input = COALESCE($4, tokens_input),
tokens_output = COALESCE($5, tokens_output),
duration_seconds = COALESCE($6, duration_seconds), completed_at = NOW()
WHERE id = $1`.  Again no condition on the current `status`. -/
def saveTaskResult (row : TaskRow) (result : String)
    (cost tokensIn tokensOut duration : Option Int) (now : Int) : TaskRow :=
  { row with
    status := "completed"
    progress := 100
    result := some result
    cost_usd := coalesce cost row.cost_usd
    tokens_input := coalesce tokensIn row.tokens_input
    tokens_output := coalesce tokensOut row.tokens_output
    duration_seconds := coalesce duration row.duration_seconds
    completed_at := some now }

/-- `update_task_status` of the dashboard backend
(dashboard/backend/app/services/task_service.py:226-312).  The query is
built dynamically: `status = $2` is always in the SET list; each optional
field is added only when the Python argument is not `None`; when
`status = 'processing'` the code appends `started_at = NOW()`
(unconditionally — the `'started_at' not in updates` test can never fire
because `updates` holds full assignment strings); when `status` is
terminal it appends `completed_at = NOW()` and
`duration_seconds = EXTRACT(EPOCH FROM (NOW() - COALESCE(started_at, created_at)))`
(PostgreSQL SET expressions read the old row values).  The `WHERE` clause
filters on `id` only. -/
def tsUpdateTaskStatus (row : TaskRow) (status : String) (progress : Option Int)
    (currentStep : Option String) (result : Option String) (error : Option String)
    (cost tokensIn tokensOut : Option Int) (now : Int) : TaskRow :=
  { row with
    status := status
    progress := progress.getD row.progress
    current_step := coalesce currentStep row.current_step
    result := coalesce result row.result
    error := coalesce error row.error
    cost_usd := coalesce cost row.cost_usd
    tokens_input := coalesce tokensIn row.tokens_input
    tokens_output := coalesce tokensOut row.tokens_output
    started_at := if status = "processing" then some now else row.started_at
    completed_at :=
      if status = "completed" ∨ status = "failed" ∨ status = "cancelled" then some now
      else row.completed_at
    duration_seconds :=
      if status = "completed" ∨ status = "failed" ∨ status = "cancelled" then
        some (now - (row.started_at.getD row.created_at))
      else row.duration_seconds }

/-- `cancel_task` (dashboard/backend/app/services/task_service.py:315-337).
`UPDATE ... SET status = 'cancelled', completed_at = NOW(), duration_seconds = ...
WHERE id = $1 AND status IN ('pending', 'processing')`; returns whether a
row was updated.  `none` models `UPDATE 0` (guard refused). -/
def cancelTask (row : TaskRow) (now : Int) : Option TaskRow :=
  if row.status = "pending" ∨ row.status = "processing" then
    some { row with
      status := "cancelled"
      completed_at := some now
      duration_seconds := some (now - (row.started_at.getD row.created_at)) }
  else none

/-! ## The worker's parse handler (`ai-service/stream_consumer.py`)

`StreamConsumer._handle_parse_task` drives one message end to end.  The
agent call (`TemplateAgent.parse_document`) and the metric computation
derived from the returned template are external to the claims settled
here, so the pipeline outcome is a parameter: on success it carries the
progress callbacks the agent fired, the produced template (opaque) and
the computed cost/token/duration figures; on failure it carries the
message and classified kind that reach `_handle_task_error`.  Every
exception raised inside the handler body is caught by one of its three
`except` arms, so the handler never propagates and `_process_message`
always acks afterwards. -/

/-- Events a handler publishes on the progress bus
(`progress_publisher.publish_progress` / `publish_completion` /
`publish_error`). -/
inductive BusEvent where
  | progressUpdate (progress : Int) (currentStep : String)
  | taskComplete (resultSummary : String)
  | taskError (errorMessage errorType : String) (recoverable : Bool)
  deriving Repr, DecidableEq

/-- Outcome of `TemplateAgent.parse_document` as seen by the handler. -/
inductive ParseOutcome where
  /-- Normal return: the callbacks the agent fired (progress, step), the
  template (opaque JSON), and the metrics the handler computes from it. -/
  | success (callbacks : List (Int × String)) (template : String)
      (cost tokensIn tokensOut duration : Int) (summary : String)
  /-- An exception reaching one of the three `except` arms, already
  classified the way the handler classifies it. -/
  | failure (errorMessage errorType : String) (recoverable : Bool)
  deriving Repr, DecidableEq

/-- `StreamConsumer._handle_task_error` (stream_consumer.py:464-485):
write `status='failed'` with the error via `update_task_status`, then
publish a `task_error` event. -/
def handleTaskError (row : TaskRow) (events : List BusEvent)
    (errorMessage errorType : String) (recoverable : Bool) (now : Int) :
    TaskRow × List BusEvent :=
  (updateTaskStatus row "failed" none none (some errorMessage) now,
   events ++ [.taskError errorMessage errorType recoverable])

/-- `StreamConsumer._handle_parse_task` (stream_consumer.py:237-462).
The handler starts by writing `status='processing', progress=0` and
publishing progress — it performs NO lookup of the row's current state.
Then: agent-availability check (missing agent raises `RuntimeError`,
caught as `configuration_error`); progress 10; the agent call with a
callback that both publishes and writes `status='processing'` per tick;
on success `save_task_result` then `publish_completion`; on any caught
exception `_handle_task_error`.  (`create_template` touches the
`templates` table, not the job row, and its failure is swallowed; it is
not modelled.) -/
def handleParseTask (row : TaskRow) (agentAvailable : Bool)
    (outcome : ParseOutcome) (now : Int) : TaskRow × List BusEvent :=
  let r1 := updateTaskStatus row "processing" (some 0)
    (some "Initializing parser...") none now
  let evs1 : List BusEvent := [.progressUpdate 0 "Initializing parser..."]
  if !agentAvailable then
    handleTaskError r1 evs1
      "Template agent not initialized (missing ANTHROPIC_API_KEY)"
      "configuration_error" false now
  else
    let evs2 := evs1 ++ [.progressUpdate 10 "Starting document analysis..."]
    let r2 := updateTaskStatus r1 "processing" (some 10)
      (some "Starting document analysis...") none now
    match outcome with
    | .success callbacks template cost tokensIn tokensOut duration summary =>
        let step := callbacks.foldl
          (fun acc pc =>
            (updateTaskStatus acc.1 "processing" (some pc.1) (some pc.2) none now,
             acc.2 ++ [.progressUpdate pc.1 pc.2]))
          (r2, evs2)
        let r3 := saveTaskResult step.1 template (some cost) (some tokensIn)
          (some tokensOut) (some duration) now
        (r3, step.2 ++ [.taskComplete summary])
    | .failure errorMessage errorType recoverable =>
        handleTaskError r2 evs2 errorMessage errorType recoverable now

/-- Result of `StreamConsumer._process_message` (stream_consumer.py:191-235)
for one parse message: the handler's effects plus the ack.  The message is
acked exactly when the handler returned without raising; since every
exception inside `_handle_parse_task` is caught there, the ack always
happens on this path. -/
structure MessageResult where
  row : TaskRow
  events : List BusEvent
  acked : Bool
  deriving Repr, DecidableEq

/-- `_process_message` on the `template:parse` stream: run the handler,
then ack. -/
def processParseMessage (row : TaskRow) (agentAvailable : Bool)
    (outcome : ParseOutcome) (now : Int) : MessageResult :=
  let h := handleParseTask row agentAvailable outcome now
  ⟨h.1, h.2, true⟩

/-! ## The progress WebSocket endpoint
(`dashboard/backend/app/websocket/task_progress.py`)

`websocket_endpoint` is modelled up to the point where it either closes
(unknown task, terminal task) or has subscribed to the Redis channel and
sent the `subscribed` confirmation; the live relay loop that follows is
interactive and outside the claims.  The row lookup
(`SELECT id, status ... WHERE id = $1` and the later full fetch) is a
parameter: `none` models a missing row.  Timestamps are second-granular
(`int(...total_seconds())` on whole-second inputs is exact). -/

/-- The stored `result` blob as the endpoint inspects it:
`isinstance(result_data, dict) and 'result_summary' in result_data`. -/
inductive ResultBlob where
  | dict (entries : List (String × String))
  | other (raw : String)
  deriving Repr, DecidableEq

/-- The columns of the job row the endpoint reads. -/
structure WsTaskRow where
  status : String
  error : Option String
  result : Option ResultBlob
  created_at : Option Int
  completed_at : Option Int
  deriving Repr, DecidableEq

/-- A JSON message sent to the WebSocket client, by shape. -/
inductive WsMsg where
  | errorMsg (message : String)
  | taskStatus (taskId status : String)
  | taskComplete (taskId status : String) (elapsedSeconds : Int)
      (currentStep : String) (resultSummary : Option String)
      (error : Option String) (errorType : Option String)
  | subscribedMsg (taskId channel : String)
  deriving Repr, DecidableEq

/-- The `type` field of a sent message. -/
def WsMsg.eventType : WsMsg → String
  | .errorMsg _ => "error"
  | .taskStatus _ _ => "task_status"
  | .taskComplete _ _ _ _ _ _ _ => "task_complete"
  | .subscribedMsg _ _ => "subscribed"

/-- What one run of the endpoint (up to the relay loop) did. -/
structure WsSession where
  sent : List WsMsg
  closed : Bool
  subscribedToChannel : Bool
  deriving Repr, DecidableEq

/-- Look up a key in a dict blob. -/
def ResultBlob.lookup (key : String) : ResultBlob → Option String
  | .dict entries => (entries.find? (fun e => e.1 == key)).map (·.2)
  | .other _ => none

/-- `websocket_endpoint` (task_progress.py:43-169), up to the relay loop.
Missing row: send `{"type":"error","message":"Task {task_id} not found"}`,
close, return — no channel subscription, no `task_status`, no
`subscribed`.  Existing row: send `task_status`; if the status is
terminal, build the completion message
(`type="task_complete"` for every terminal status; `current_step` is
`"Completed!"` for completed and `"Failed"` otherwise; `elapsed_seconds`
from `completed_at - created_at` when both are present, else 0;
`result_summary` only when completed and the stored result is a dict
containing a `result_summary` key; `error` plus the constant
`error_type="task_error"` only when failed with a non-null error), send
it, close, return.  Otherwise subscribe to `progress:task:{task_id}` and
send the `subscribed` confirmation. -/
def websocketEndpoint (taskId : String) (lookup : Option WsTaskRow) : WsSession :=
  match lookup with
  | none =>
      ⟨[.errorMsg ("Task " ++ taskId ++ " not found")], true, false⟩
  | some row =>
      let statusMsg : WsMsg := .taskStatus taskId row.status
      if row.status = "completed" ∨ row.status = "failed" ∨ row.status = "cancelled" then
        let elapsed : Int :=
          match row.created_at, row.completed_at with
          | some c, some d => d - c
          | _, _ => 0
        let currentStep := if row.status = "completed" then "Completed!" else "Failed"
        let resultSummary :=
          if row.status = "completed" then
            row.result.bind (ResultBlob.lookup "result_summary")
          else none
        let errField := if row.status = "failed" then row.error else none
        let errType :=
          if row.status = "failed" ∧ row.error ≠ none then some "task_error" else none
        ⟨[statusMsg,
          .taskComplete taskId row.status elapsed currentStep resultSummary
            errField errType],
         true, false⟩
      else
        ⟨[statusMsg, .subscribedMsg taskId ("progress:task:" ++ taskId)],
         false, true⟩

/-! ## Template version store
(`dashboard/backend/app/routes/catalog_templates.py`)

`restore_template_version` runs in one transaction over the `templates`
row and the `template_versions` table.  The structure blob is modelled
just finely enough to count sections, as the route does. -/

/-- A template structure: the route only reads
`structure.get("fixed_sections", [])` / `.get("fillable_sections", [])`
lengths; the section contents are opaque. -/
structure TplStructure where
  fixed_sections : List String
  fillable_sections : List String
  deriving Repr, DecidableEq

/-- A `template_versions` row (the columns the route writes/reads). -/
structure VersionRow where
  version_number : Nat
  template_structure : TplStructure
  change_summary : String
  restored_from_version : Option Nat
  deriving Repr, DecidableEq

/-- The current `templates` row (the columns the route touches). -/
structure TemplateRec where
  version_number : Nat
  template_structure : TplStructure
  total_fixed_sections : Nat
  total_fillable_sections : Nat
  restored_from_version : Option Nat
  deriving Repr, DecidableEq

/-- A template together with its version history. -/
structure TemplateState where
  current : TemplateRec
  versions : List VersionRow
  deriving Repr, DecidableEq

/-- `restore_template_version` (catalog_templates.py:686-766).  Inside one
transaction: fetch the version row with `version_number = target`
(404 when absent), fetch the current row, compute
`new_version = current + 1`, count the snapshot's sections, `UPDATE
templates SET template_structure = snapshot, version_number = new_version,
total_* = counts, restored_from_version = target`, and `INSERT` a version
row `(new_version, snapshot, "Restored from version {target}", target)`.
Returns the new version number alongside the new state; `none` models the
404. -/
def restoreTemplateVersion (st : TemplateState) (targetVersion : Nat) :
    Option (TemplateState × Nat) :=
  match st.versions.find? (fun v => v.version_number == targetVersion) with
  | none => none
  | some versionRow =>
      let newVersion := st.current.version_number + 1
      let snapshot := versionRow.template_structure
      let newCurrent : TemplateRec :=
        { version_number := newVersion
          template_structure := snapshot
          total_fixed_sections := snapshot.fixed_sections.length
          total_fillable_sections := snapshot.fillable_sections.length
          restored_from_version := some targetVersion }
      let newRow : VersionRow :=
        { version_number := newVersion
          template_structure := snapshot
          change_summary := "Restored from version " ++ toString targetVersion
          restored_from_version := some targetVersion }
      some (⟨newCurrent, st.versions ++ [newRow]⟩, newVersion)

/-! ## LLM client retry loop (`ai-service/llm_client.py`)

`LLMClient._call_with_retry` loops `for attempt in range(self.max_retries)`
around one provider call.  The two `except` arms catch
`anthropic.RateLimitError` and `anthropic.APIError`.  In the anthropic
SDK, `RateLimitError`, `AuthenticationError` (401),
`PermissionDeniedError` (403), `BadRequestError` (400),
`NotFoundError` (404), `UnprocessableEntityError` (422) and
`InternalServerError` are all subclasses of `APIError`, so every one of
them lands in a retry arm; only non-`APIError` exceptions escape the
loop at once.  The provider call is a per-attempt oracle. -/

/-- What one provider call does, as the retry loop's `except` arms see it. -/
inductive LLMAttempt where
  /-- Normal return. -/
  | success (content : String) (inputTokens outputTokens : Nat)
  /-- `anthropic.RateLimitError` (HTTP 429). -/
  | rateLimitError
  /-- Any other `anthropic.APIError` subclass; `kind` records which
  (e.g. "authentication_error" for 401, "permission_error" for 403,
  "invalid_request_error" for 400). -/
  | apiError (kind : String)
  deriving Repr, DecidableEq

/-- Whether an attempt landed in one of the two retrying `except` arms. -/
def LLMAttempt.isFailure : LLMAttempt → Bool
  | .success _ _ _ => false
  | .rateLimitError => true
  | .apiError _ => true

/-- Result of the whole retry loop. -/
inductive LLMOutcome where
  | ok (content : String) (inputTokens outputTokens : Nat)
  /-- The last caught error is re-raised after the final attempt. -/
  | raised (last : LLMAttempt)
  deriving Repr, DecidableEq

/-- Trace of one `_call_with_retry` run: the outcome, how many provider
calls were made, and the backoff sleeps (seconds) taken between them. -/
structure RetryTrace where
  outcome : LLMOutcome
  attemptsMade : Nat
  sleeps : List Nat
  deriving Repr, DecidableEq

/-- The body of `_call_with_retry` (llm_client.py:98-182) from attempt
index `attempt` with `left` loop iterations remaining
(`left = max_retries - attempt`).  On `RateLimitError` or `APIError`:
if `attempt < max_retries - 1` (i.e. `left > 1`), sleep `2 ^ attempt`
seconds and continue; otherwise re-raise. -/
def callWithRetryAux (oracle : Nat → LLMAttempt) (attempt : Nat) :
    Nat → Nat → List Nat → RetryTrace
  | 0, made, sleeps =>
      -- `range(max_retries)` exhausted without a return: unreachable when
      -- max_retries > 0, kept total for the embedding.
      ⟨.raised (oracle attempt), made, sleeps⟩
  | left + 1, made, sleeps =>
      match oracle attempt with
      | .success content tin tout =>
          ⟨.ok content tin tout, made + 1, sleeps⟩
      | e =>
          if left = 0 then
            ⟨.raised e, made + 1, sleeps⟩
          else
            callWithRetryAux oracle (attempt + 1) left (made + 1)
              (sleeps ++ [2 ^ attempt])

/-- `LLMClient._call_with_retry` with `self.max_retries = maxRetries`
(default 3, set in `LLMClient.__init__`). -/
def callWithRetry (oracle : Nat → LLMAttempt) (maxRetries : Nat) : RetryTrace :=
  callWithRetryAux oracle 0 maxRetries 0 []

/-! ## Template enrichment (`ai-service/agents/template.py`) -/

/-- `TemplateAgent._estimate_completion_time` (template.py:717-731):
`return 5` when the count is 0, else `max(5, int(count * 2.5))`.
Python `int()` truncates toward zero and `count * 2.5 = 5*count/2` is
exact in double precision for every realistic count (`5*count < 2^53`),
so the truncation is the floor `5 * count / 2` in `Nat`. -/
def estimateCompletionTime (fillableSectionsCount : Nat) : Nat :=
  if fillableSectionsCount = 0 then 5
  else max 5 (5 * fillableSectionsCount / 2)

/-- The estimate as §4.6 step 8 of the spec words it:
`max(5, ⌈2.5 × fillable_count⌉)`, i.e. the CEILING of `5n/2`. -/
def completionEstimateSpec (fillableCount : Nat) : Nat :=
  max 5 ((5 * fillableCount + 1) / 2)

/-- A parsed template as `_enrich_template` sees it: the two section
arrays (opaque entries apart from their `semantic_tags`). -/
structure ParsedTemplate where
  fixed_sections : List String
  fillable_sections : List (List String)
  deriving Repr, DecidableEq

/-- The `metadata` sub-object `_enrich_template` attaches. -/
structure TemplateMetadata where
  source_file : String
  parsed_at : String
  total_fixed_sections : Nat
  total_fillable_sections : Nat
  semantic_tags_used : List String
  completion_estimate_minutes : Nat
  deriving Repr, DecidableEq

/-- `TemplateAgent._extract_unique_tags` (template.py:733-738): the sorted
deduplicated union of all fillable sections' `semantic_tags`. -/
def extractUniqueTags (fillableSections : List (List String)) : List String :=
  (fillableSections.foldl (fun acc tags => acc ∪ tags) []).mergeSort (· ≤ ·)

/-- `TemplateAgent._enrich_template` (template.py:693-715): compute
`fillable_count = len(fillable_sections)`, the completion estimate, and
set `template["metadata"]` to the six-field object. -/
def enrichTemplate (template : ParsedTemplate) (fileName parsedAt : String) :
    TemplateMetadata :=
  { source_file := fileName
    parsed_at := parsedAt
    total_fixed_sections := template.fixed_sections.length
    total_fillable_sections := template.fillable_sections.length
    semantic_tags_used := extractUniqueTags template.fillable_sections
    completion_estimate_minutes :=
      estimateCompletionTime template.fillable_sections.length }

/-! ## Document file validation (`ai-service/agents/template.py`) -/

/-- What `_validate_document_file` observes about the file.
`suffixLower` is `Path(file_path).suffix.lower()`: the extension as the
path library reports it, already lower-cased by the `str.lower` library
call (both are external primitives, so their result is an input of the
model). -/
structure DocumentFile where
  exists_ : Bool
  suffixLower : String
  sizeBytes : Nat
  readable : Bool
  deriving Repr, DecidableEq

/-- The validation failures `_validate_document_file` raises. -/
inductive FileValidationError where
  | fileNotFound
  | invalidFormat
  | fileTooLarge
  | fileUnreadable
  deriving Repr, DecidableEq

/-- The size test of `_validate_document_file` (template.py:754-757):
`file_size_mb = size / (1024 * 1024)` (true division) and reject when
`file_size_mb > 50`.  Division of an integer below `2^53` by `2^20` is
exact in double precision, so the comparison is the exact rational one. -/
def fileTooLargeCheck (sizeBytes : Nat) : Bool :=
  decide ((sizeBytes : ℚ) / (1024 * 1024) > 50)

/-- `TemplateAgent._validate_document_file` (template.py:744-766), checks
in source order: existence, suffix (lower-cased, `.docx`/`.doc`), the
50 MB size test, readability. -/
def validateDocumentFile (f : DocumentFile) : Except FileValidationError Unit :=
  if !f.exists_ then .error .fileNotFound
  else if !(f.suffixLower == ".docx" || f.suffixLower == ".doc") then
    .error .invalidFormat
  else if fileTooLargeCheck f.sizeBytes then .error .fileTooLarge
  else if !f.readable then .error .fileUnreadable
  else .ok ()

/-! ## Helper lemmas -/

@[simp] theorem coalesce_some {α : Type} (x : α) (b : Option α) :
    coalesce (some x) b = some x := rfl

@[simp] theorem coalesce_none {α : Type} (b : Option α) :
    coalesce none b = b := rfl

theorem coalesce_eq_none_iff {α : Type} (a b : Option α) :
    coalesce a b = none ↔ a = none ∧ b = none := by
  cases a <;> simp [coalesce]

/-! ## C1 — state-machine guarding of task-store mutations -/

/-- C1 counterexample: the claim says every task-store mutation is guarded
by a compare-and-set on the current state, so no update ever moves a row
out of a terminal state.  `DatabaseClient.update_task_status` filters on
`id` alone: applied to a row already `completed`, a `status='processing'`
update moves the row straight back out of the terminal state. -/
theorem C1_counterexample :
    (isTerminalStatus "completed" = true) ∧
    (updateTaskStatus
        ⟨"completed", 100, some "Done", none, some "ok", some 1, some 10,
         some 20, some 30, 0, some 1, some 40⟩
        "processing" (some 0) (some "Initializing parser...") none 50).status
      = "processing" ∧
    isTerminalStatus
      (updateTaskStatus
        ⟨"completed", 100, some "Done", none, some "ok", some 1, some 10,
         some 20, some 30, 0, some 1, some 40⟩
        "processing" (some 0) (some "Initializing parser...") none 50).status
      = false := by
  refine ⟨rfl, rfl, rfl⟩

/-- C1 (amended): only cancellation is guarded by the current state.
`update_task_status` in both services and `save_task_result` write the
requested status unconditionally (their `WHERE` clauses filter on `id`
only), so they can move a row out of a terminal state; the dashboard's
`cancel_task` alone compare-and-sets, succeeding exactly when the row is
`pending` or `processing`. -/
theorem C1_amended_guards :
    (∀ (row : TaskRow) (s : String) (p : Option Int) (cs e : Option String)
       (t : Int), (updateTaskStatus row s p cs e t).status = s) ∧
    (∀ (row : TaskRow) (s : String) (p : Option Int) (cs r e : Option String)
       (c tin tout : Option Int) (t : Int),
       (tsUpdateTaskStatus row s p cs r e c tin tout t).status = s) ∧
    (∀ (row : TaskRow) (res : String) (c tin tout d : Option Int) (t : Int),
       (saveTaskResult row res c tin tout d t).status = "completed") ∧
    (∀ (row : TaskRow) (t : Int),
       (cancelTask row t).isSome ↔
         (row.status = "pending" ∨ row.status = "processing")) := by
  refine ⟨fun _ _ _ _ _ _ => rfl, fun _ _ _ _ _ _ _ _ _ _ => rfl,
    fun _ _ _ _ _ _ _ => rfl, fun row t => ?_⟩
  unfold cancelTask
  split <;> simp_all

/-! ## C3 — progress monotonicity under `update` -/

/-- C3 counterexample: the claim says a progress value lower than the
stored one is clamped and a warning emitted.  The store's
`update_task_status` writes `progress = COALESCE($3, progress)`: a
supplied value always replaces the stored one, so a `processing` row at
progress 50 drops to 10 when 10 is supplied; no clamping exists (and the
function emits nothing). -/
theorem C3_counterexample :
    (updateTaskStatus
        ⟨"processing", 50, some "Halfway", none, none, none, none, none,
         none, 0, some 1, none⟩
        "processing" (some 10) (some "step") none 5).progress = 10 ∧
    ¬ (50 : Int) ≤
      (updateTaskStatus
        ⟨"processing", 50, some "Halfway", none, none, none, none, none,
         none, 0, some 1, none⟩
        "processing" (some 10) (some "step") none 5).progress := by
  refine ⟨rfl, by decide⟩

/-- C3 (amended): a supplied progress value is stored as-is — the
`COALESCE` only substitutes the existing value when no progress is
supplied — so stored progress can decrease while the row is
`processing`; no clamping and no warning event exist in the store. -/
theorem C3_amended_progress_overwrite :
    ∀ (row : TaskRow) (s : String) (v : Int) (cs e : Option String) (t : Int),
      (updateTaskStatus row s (some v) cs e t).progress = v ∧
      (updateTaskStatus row s none cs e t).progress = row.progress := by
  intro row s v cs e t
  exact ⟨rfl, rfl⟩

/-! ## C9 — COALESCE frame semantics of the store writes -/

/-- C9: in `DatabaseClient.update_task_status` an unsupplied
`progress` / `current_step` / `error` leaves the stored column unchanged,
and in `DatabaseClient.save_task_result` an unsupplied
cost / token / duration figure does likewise; `save_task_result` never
touches `error` at all, and `update_task_status` can only produce a NULL
`error` when the column was already NULL and no error is supplied — so a
non-null error is never cleared by any later status update. -/
theorem C9_coalesce_frame (row : TaskRow) (s res : String) (t : Int)
    (p c tin tout d : Option Int) (cs e : Option String) :
    (updateTaskStatus row s none cs e t).progress = row.progress ∧
    (updateTaskStatus row s p none e t).current_step = row.current_step ∧
    (updateTaskStatus row s p cs none t).error = row.error ∧
    (saveTaskResult row res none tin tout d t).cost_usd = row.cost_usd ∧
    (saveTaskResult row res c none tout d t).tokens_input = row.tokens_input ∧
    (saveTaskResult row res c tin none d t).tokens_output = row.tokens_output ∧
    (saveTaskResult row res c tin tout none t).duration_seconds
      = row.duration_seconds ∧
    (saveTaskResult row res c tin tout d t).error = row.error ∧
    ((updateTaskStatus row s p cs e t).error = none ↔
      (e = none ∧ row.error = none)) := by
  refine ⟨rfl, rfl, rfl, rfl, rfl, rfl, rfl, rfl, ?_⟩
  exact coalesce_eq_none_iff e row.error

/-! ## C2 — idempotent handling of redelivered messages -/

/-- C2 counterexample: the claim says the per-message handler first looks
up the job row and, on a terminal state, acks and returns as a no-op.
`_handle_parse_task` performs no such lookup: delivered a message for an
already-`completed` row, it rewrites the row (here the pipeline fails, so
the row leaves `completed` for `failed`), publishes three bus events, and
the message is acked — anything but a no-op. -/
theorem C2_counterexample :
    (isTerminalStatus "completed" = true) ∧
    (processParseMessage
        ⟨"completed", 100, some "Done", none, some "ok", some 2, some 10,
         some 20, some 30, 0, some 1, some 40⟩
        true (.failure "Parsing failed: boom" "parsing_error" true) 50)
      = ⟨⟨"failed", 10, some "Starting document analysis...",
          some "Parsing failed: boom", some "ok", some 2, some 10, some 20,
          some 30, 0, some 1, some 50⟩,
         [.progressUpdate 0 "Initializing parser...",
          .progressUpdate 10 "Starting document analysis...",
          .taskError "Parsing failed: boom" "parsing_error" true],
         true⟩ := by
  exact ⟨rfl, rfl⟩

/-- C2 (amended): the handler never consults the task store before
working.  For every starting row — terminal or not — it immediately
overwrites the row (`processing`, then `completed` on pipeline success or
`failed` on any caught error), publishes progress events, and the message
is acked. -/
theorem C2_amended_handler_unconditional (row : TaskRow)
    (outcome : ParseOutcome) (now : Int) :
    (processParseMessage row true outcome now).acked = true ∧
    (processParseMessage row true outcome now).events ≠ [] ∧
    (processParseMessage row true outcome now).row.status =
      (match outcome with
       | .success _ _ _ _ _ _ _ => "completed"
       | .failure _ _ _ => "failed") := by
  refine ⟨rfl, ?_, ?_⟩ <;>
    cases outcome <;>
      simp [processParseMessage, handleParseTask, handleTaskError,
        saveTaskResult, updateTaskStatus]

/-! ## C10 — WebSocket connection for an unknown task -/

/-- C10: opening the progress WebSocket for a `task_id` with no row sends
exactly one event, of type `error` with message `Task {task_id} not
found`, and closes the socket — no channel subscription, no `task_status`,
no `subscribed` event. -/
theorem C10_unknown_task (taskId : String) :
    websocketEndpoint taskId none =
      ⟨[.errorMsg ("Task " ++ taskId ++ " not found")], true, false⟩ ∧
    ((websocketEndpoint taskId none).sent.map WsMsg.eventType) = ["error"] := by
  exact ⟨rfl, rfl⟩

/-! ## C4 — WebSocket subscription to an already-terminal task -/

/-- C4 counterexample: the claim says a subscription to a `failed` task
receives its synthetic terminal event *as a `task_error` event*.  The
endpoint builds the terminal message with `"type": "task_complete"` for
every terminal status; for a failed task the error text and the constant
`error_type = "task_error"` ride inside that `task_complete` message, and
no message of type `task_error` is sent. -/
theorem C4_counterexample :
    (websocketEndpoint "task-1"
        (some ⟨"failed", some "LLM call failed", none, some 100, some 160⟩))
      = ⟨[.taskStatus "task-1" "failed",
          .taskComplete "task-1" "failed" 60 "Failed" none
            (some "LLM call failed") (some "task_error")],
         true, false⟩ ∧
    ((websocketEndpoint "task-1"
        (some ⟨"failed", some "LLM call failed", none, some 100, some 160⟩)).sent.map
      WsMsg.eventType) = ["task_status", "task_complete"] ∧
    ¬ "task_error" ∈
      ((websocketEndpoint "task-1"
        (some ⟨"failed", some "LLM call failed", none, some 100, some 160⟩)).sent.map
      WsMsg.eventType) := by
  refine ⟨rfl, rfl, by decide⟩

/-- C4 (amended): on subscribing to a task already in a terminal state the
server sends the initial `task_status`, then exactly one synthetic
terminal event — always of type `task_complete` — carrying the elapsed
seconds (`completed_at - created_at`), carrying `result_summary` when the
task is `completed` and its stored result is a dict with that key, and
carrying `error` plus the constant `error_type = "task_error"` as fields
of that same `task_complete` message when the task is `failed`; then it
closes without subscribing to the progress channel. -/
theorem C4_amended_terminal_subscription (taskId : String) (row : WsTaskRow)
    (hterm : row.status = "completed" ∨ row.status = "failed" ∨
      row.status = "cancelled")
    (c d : Int) (hc : row.created_at = some c) (hd : row.completed_at = some d) :
    (websocketEndpoint taskId (some row)).sent =
      [.taskStatus taskId row.status,
       .taskComplete taskId row.status (d - c)
         (if row.status = "completed" then "Completed!" else "Failed")
         (if row.status = "completed" then
            row.result.bind (ResultBlob.lookup "result_summary")
          else none)
         (if row.status = "failed" then row.error else none)
         (if row.status = "failed" ∧ row.error ≠ none then some "task_error"
          else none)] ∧
    ((websocketEndpoint taskId (some row)).sent.map WsMsg.eventType)
      = ["task_status", "task_complete"] ∧
    (websocketEndpoint taskId (some row)).closed = true ∧
    (websocketEndpoint taskId (some row)).subscribedToChannel = false := by
  obtain ⟨st, er, res, ca, cd⟩ := row
  dsimp only at hterm hc hd ⊢
  subst hc; subst hd
  rcases hterm with h | h | h <;> subst h <;>
    simp +decide [websocketEndpoint, WsMsg.eventType]

/-- Witness for C4 (amended) at a concrete completed task whose stored
result carries a `result_summary` entry. -/
theorem C4_amended_witness :
    (websocketEndpoint "t1"
        (some ⟨"completed", none,
          some (.dict [("result_summary", "4 sections")]), some 100,
          some 160⟩)).sent =
      [.taskStatus "t1" "completed",
       .taskComplete "t1" "completed" 60 "Completed!" (some "4 sections")
         none none] ∧
    ((websocketEndpoint "t1"
        (some ⟨"completed", none,
          some (.dict [("result_summary", "4 sections")]), some 100,
          some 160⟩)).sent.map WsMsg.eventType)
      = ["task_status", "task_complete"] ∧
    (websocketEndpoint "t1"
        (some ⟨"completed", none,
          some (.dict [("result_summary", "4 sections")]), some 100,
          some 160⟩)).closed = true ∧
    (websocketEndpoint "t1"
        (some ⟨"completed", none,
          some (.dict [("result_summary", "4 sections")]), some 100,
          some 160⟩)).subscribedToChannel = false := by
  have h := C4_amended_terminal_subscription "t1"
    ⟨"completed", none, some (.dict [("result_summary", "4 sections")]),
     some 100, some 160⟩
    (Or.inl rfl) 100 160 rfl rfl
  simpa using h

/-! ## C5 — restore as a new version -/

/-- C5: `restore(template, m)` on a template at version `n` with a stored
version `m ≤ n` sets the current structure to version `m`'s snapshot,
bumps the version number to `n + 1`, sets `restored_from_version = m`, and
appends a version row with change summary `Restored from version {m}`
carrying that snapshot; an immediate second `restore(template, m)` then
yields version `n + 2` whose row carries the same snapshot. -/
theorem C5_restore_then_restore (st : TemplateState) (m : Nat)
    (vrow : VersionRow)
    (hfind : st.versions.find? (fun v => v.version_number == m) = some vrow)
    (_hm : m ≤ st.current.version_number) :
    restoreTemplateVersion st m =
      some (⟨⟨st.current.version_number + 1, vrow.template_structure,
              vrow.template_structure.fixed_sections.length,
              vrow.template_structure.fillable_sections.length, some m⟩,
             st.versions ++
               [⟨st.current.version_number + 1, vrow.template_structure,
                 "Restored from version " ++ toString m, some m⟩]⟩,
            st.current.version_number + 1) ∧
    restoreTemplateVersion
        ⟨⟨st.current.version_number + 1, vrow.template_structure,
          vrow.template_structure.fixed_sections.length,
          vrow.template_structure.fillable_sections.length, some m⟩,
         st.versions ++
           [⟨st.current.version_number + 1, vrow.template_structure,
             "Restored from version " ++ toString m, some m⟩]⟩ m =
      some (⟨⟨st.current.version_number + 2, vrow.template_structure,
              vrow.template_structure.fixed_sections.length,
              vrow.template_structure.fillable_sections.length, some m⟩,
             st.versions ++
               [⟨st.current.version_number + 1, vrow.template_structure,
                 "Restored from version " ++ toString m, some m⟩,
                ⟨st.current.version_number + 2, vrow.template_structure,
                 "Restored from version " ++ toString m, some m⟩]⟩,
            st.current.version_number + 2) := by
  constructor
  · unfold restoreTemplateVersion
    rw [hfind]
  · unfold restoreTemplateVersion
    dsimp only
    rw [List.find?_append, hfind]
    simp [Option.or]

/-- Witness for C5 at a template currently at version 3, restoring
version 1 twice. -/
theorem C5_witness :
    restoreTemplateVersion
        ⟨⟨3, ⟨["f3"], ["a", "b"]⟩, 1, 2, none⟩,
         [⟨1, ⟨["f1"], ["a"]⟩, "Initial version", none⟩,
          ⟨2, ⟨["f2"], ["a"]⟩, "Edited", none⟩,
          ⟨3, ⟨["f3"], ["a", "b"]⟩, "Edited", none⟩]⟩ 1 =
      some (⟨⟨4, ⟨["f1"], ["a"]⟩, 1, 1, some 1⟩,
             [⟨1, ⟨["f1"], ["a"]⟩, "Initial version", none⟩,
              ⟨2, ⟨["f2"], ["a"]⟩, "Edited", none⟩,
              ⟨3, ⟨["f3"], ["a", "b"]⟩, "Edited", none⟩,
              ⟨4, ⟨["f1"], ["a"]⟩, "Restored from version 1", some 1⟩]⟩, 4) ∧
    restoreTemplateVersion
        ⟨⟨4, ⟨["f1"], ["a"]⟩, 1, 1, some 1⟩,
         [⟨1, ⟨["f1"], ["a"]⟩, "Initial version", none⟩,
          ⟨2, ⟨["f2"], ["a"]⟩, "Edited", none⟩,
          ⟨3, ⟨["f3"], ["a", "b"]⟩, "Edited", none⟩,
          ⟨4, ⟨["f1"], ["a"]⟩, "Restored from version 1", some 1⟩]⟩ 1 =
      some (⟨⟨5, ⟨["f1"], ["a"]⟩, 1, 1, some 1⟩,
             [⟨1, ⟨["f1"], ["a"]⟩, "Initial version", none⟩,
              ⟨2, ⟨["f2"], ["a"]⟩, "Edited", none⟩,
              ⟨3, ⟨["f3"], ["a", "b"]⟩, "Edited", none⟩,
              ⟨4, ⟨["f1"], ["a"]⟩, "Restored from version 1", some 1⟩,
              ⟨5, ⟨["f1"], ["a"]⟩, "Restored from version 1", some 1⟩]⟩, 5) := by
  have h := C5_restore_then_restore
    ⟨⟨3, ⟨["f3"], ["a", "b"]⟩, 1, 2, none⟩,
     [⟨1, ⟨["f1"], ["a"]⟩, "Initial version", none⟩,
      ⟨2, ⟨["f2"], ["a"]⟩, "Edited", none⟩,
      ⟨3, ⟨["f3"], ["a", "b"]⟩, "Edited", none⟩]⟩ 1
    ⟨1, ⟨["f1"], ["a"]⟩, "Initial version", none⟩ rfl (by decide)
  simpa using h

/-! ## C6 — LLM gateway retry policy -/

/-- C6 counterexample: the claim says authentication / quota / non-429 4xx
errors are surfaced without retrying.  In the anthropic SDK those
exceptions subclass `APIError`, and `_call_with_retry`'s second `except`
arm catches `APIError` and retries it exactly like a rate-limit: a call
failing with an authentication error on every attempt makes 3 provider
calls with backoff sleeps of 1 s and 2 s before surfacing, instead of
surfacing after 1 call. -/
theorem C6_counterexample :
    callWithRetry (fun _ => .apiError "authentication_error") 3 =
      ⟨.raised (.apiError "authentication_error"), 3, [1, 2]⟩ ∧
    (callWithRetry (fun _ => .apiError "authentication_error") 3).attemptsMade
      ≠ 1 := by
  refine ⟨rfl, by decide⟩

/-- C6 (amended): with `max_retries = 3`, every failure the loop can see —
`RateLimitError` or any other `APIError` subclass, authentication, quota
and non-429 4xx errors included — is retried with exponential backoff
`2^attempt` seconds (1 s, then 2 s); whatever the third attempt does is
surfaced.  Only exceptions outside the `APIError` hierarchy escape
unretried. -/
theorem C6_amended_retry_policy (oracle : Nat → LLMAttempt)
    (h0 : (oracle 0).isFailure = true) (h1 : (oracle 1).isFailure = true) :
    callWithRetry oracle 3 =
      ⟨match oracle 2 with
        | .success content tin tout => .ok content tin tout
        | .rateLimitError => .raised .rateLimitError
        | .apiError kind => .raised (.apiError kind),
       3, [1, 2]⟩ := by
  unfold callWithRetry
  cases ho0 : oracle 0 <;>
    first
    | (rw [ho0] at h0; exact Bool.noConfusion h0)
    | (cases ho1 : oracle 1 <;>
        first
        | (rw [ho1] at h1; exact Bool.noConfusion h1)
        | (cases ho2 : oracle 2 <;>
            simp [callWithRetryAux, ho0, ho1, ho2]))

/-- Witness for C6 (amended): rate-limited, then an authentication
`APIError`, then success — three calls, sleeps 1 s and 2 s, result
surfaced. -/
theorem C6_amended_witness :
    ((fun i => if i = 0 then LLMAttempt.rateLimitError
      else if i = 1 then LLMAttempt.apiError "authentication_error"
      else LLMAttempt.success "ok" 5 7) 0).isFailure = true ∧
    ((fun i => if i = 0 then LLMAttempt.rateLimitError
      else if i = 1 then LLMAttempt.apiError "authentication_error"
      else LLMAttempt.success "ok" 5 7) 1).isFailure = true ∧
    callWithRetry
      (fun i => if i = 0 then LLMAttempt.rateLimitError
        else if i = 1 then LLMAttempt.apiError "authentication_error"
        else LLMAttempt.success "ok" 5 7) 3 = ⟨.ok "ok" 5 7, 3, [1, 2]⟩ := by
  refine ⟨rfl, rfl, ?_⟩
  have h := C6_amended_retry_policy
    (fun i => if i = 0 then LLMAttempt.rateLimitError
      else if i = 1 then LLMAttempt.apiError "authentication_error"
      else LLMAttempt.success "ok" 5 7) rfl rfl
  simpa using h

/-! ## C7 — completion-time estimate -/

/-- C7: the claim (and the code's own comment, "2.5 minutes per section,
rounded up") say the estimate is `max(5, ⌈2.5 × fillable_count⌉)`, giving
8 for 3 fillable sections.  `_estimate_completion_time` computes
`max(5, int(count * 2.5))`, and Python's `int()` truncates — the floor,
not the ceiling — so 3 fillable sections give 7.  The enrichment step
stores exactly this floored value in
`metadata.completion_estimate_minutes`. -/
theorem C7_estimate_truncates :
    estimateCompletionTime 3 = 7 ∧
    completionEstimateSpec 3 = 8 ∧
    (enrichTemplate ⟨["f1"], [["a"], ["b"], ["a"]]⟩ "doc.docx"
        "2026-01-01T00:00:00Z").completion_estimate_minutes = 7 ∧
    (∀ n : Nat, estimateCompletionTime n = max 5 (5 * n / 2)) ∧
    (∀ (t : ParsedTemplate) (fileName parsedAt : String),
      (enrichTemplate t fileName parsedAt).completion_estimate_minutes =
        max 5 (5 * t.fillable_sections.length / 2)) := by
  have hall : ∀ n : Nat, estimateCompletionTime n = max 5 (5 * n / 2) := by
    intro n
    unfold estimateCompletionTime
    split
    · subst n; decide
    · rfl
  refine ⟨by decide, by decide, ?_, hall, fun t fileName parsedAt => hall _⟩
  exact hall 3

/-! ## C8 — 50 MB input size boundary -/

/-- The float comparison `size / (1024 * 1024) > 50` is the integer
comparison `size > 50 * 1024 * 1024`. -/
theorem fileTooLargeCheck_iff (sizeBytes : Nat) :
    fileTooLargeCheck sizeBytes = decide (50 * 1024 * 1024 < sizeBytes) := by
  unfold fileTooLargeCheck
  rw [decide_eq_decide, gt_iff_lt,
    lt_div_iff₀ (by norm_num : (0:ℚ) < 1024 * 1024)]
  constructor <;> intro h <;> exact_mod_cast h

/-- C8: validation accepts a readable `.docx` file of exactly
50 MB = 50 × 1024 × 1024 bytes and rejects one of 50 MB + 1 byte with the
file-too-large error; in general the size test rejects exactly when
`size / 1024²` exceeds 50, i.e. when `size > 50 × 1024²` bytes. -/
theorem C8_fifty_megabyte_boundary :
    validateDocumentFile ⟨true, ".docx", 50 * 1024 * 1024, true⟩ = .ok () ∧
    validateDocumentFile ⟨true, ".docx", 50 * 1024 * 1024 + 1, true⟩
      = .error .fileTooLarge ∧
    (∀ sizeBytes : Nat,
      fileTooLargeCheck sizeBytes = decide (50 * 1024 * 1024 < sizeBytes)) := by
  have hs1 : fileTooLargeCheck (50 * 1024 * 1024) = false := by
    rw [fileTooLargeCheck_iff]; decide
  have hs2 : fileTooLargeCheck (50 * 1024 * 1024 + 1) = true := by
    rw [fileTooLargeCheck_iff]; decide
  refine ⟨?_, ?_, fileTooLargeCheck_iff⟩ <;>
    simp [validateDocumentFile, hs1, hs2]

end DNA
